import Mathlib

/-!
Verification of `blueprints/inference/gpu/ray-vllm/client.py`.

The script binds three module-level constants (`model`, `port`, `prompt`),
constructs an OpenAI client with a base URL interpolated from the port and a
fixed api key `"token"`, issues one chat-completion call carrying the model
and a single user message with the prompt, and prints the message of the
first response choice.  A commented-out "Completions" variant is inert.

We embed the script as a list of statements interpreted over an explicit
state (variable bindings, the response, the emitted events, a pending
error), with the server modelled as a function from requests to either a
response or an SDK-level error.
-/

namespace RayVllmClient

/-- One role-tagged chat message, as in the JSON request/response bodies. -/
structure Message where
  role : String
  content : String
deriving DecidableEq, Repr

/-- The body of a chat-completion request: `model` and `messages` fields. -/
structure ChatRequest where
  model : String
  messages : List Message
deriving DecidableEq, Repr

/-- One candidate answer in a chat-completion response. -/
structure Choice where
  message : Message
deriving DecidableEq, Repr

/-- A chat-completion response: a list of choices. -/
structure ChatResponse where
  choices : List Choice
deriving DecidableEq, Repr

/-- The client handle built by `OpenAI(base_url=..., api_key=...)`. -/
structure Client where
  base_url : String
  api_key : String
deriving DecidableEq, Repr

/-- Failures the underlying HTTP/SDK layer may surface during the call. -/
inductive SdkError where
  | connectionRefused
  | timeout
  | malformedResponse
  | authenticationFailure
  | other (msg : String)
deriving DecidableEq, Repr

/-- Errors that can terminate the script: a propagated SDK error, the
`IndexError` from `choices[0]` on an empty list, or a `NameError` from
using a variable before it is bound. -/
inductive ScriptError where
  | sdk (e : SdkError)
  | indexError
  | nameError
deriving DecidableEq, Repr

/-- Observable effects of the script: the outbound chat-completion call
(through a client, with a request body), the outbound call of the
commented-out "Completions" variant, and a line printed to stdout. -/
inductive Event where
  | chatCompletionCall (c : Client) (req : ChatRequest)
  | completionsCall (c : Client) (model prompt : String)
  | stdout (m : Message)
deriving DecidableEq, Repr

/-- Line 3: `model = ""` (model name in org/model format, placeholder). -/
def model : String := ""

/-- Line 4: `port = ""` (port number being forwarded, placeholder). -/
def port : String := ""

/-- Line 5: `prompt = "Hello"`. -/
def prompt : String := "Hello"

/-- Python f-string interpolation of a single string value, `f"{prompt}"`. -/
def fstrInterp (s : String) : String := s!"{s}"

/-- Lines 6-9: `OpenAI(base_url=f"http://localhost:{port}/v1", api_key="token")`. -/
def mkClient (p : String) : Client :=
  { base_url := s!"http://localhost:{p}/v1", api_key := "token" }

/-- Lines 12-17: the request body of `client.chat.completions.create`:
the model, and a single user-role message whose content is `f"{prompt}"`. -/
def mkRequest (m pr : String) : ChatRequest :=
  { model := m, messages := [{ role := "user", content := fstrInterp pr }] }

/-- The remote inference server, as the script sees it: each request either
yields a response or makes the SDK raise an error. -/
def Server : Type := ChatRequest → Except SdkError ChatResponse

/-- The statements of the script, in source order.  `completionsCreate`
stands for the commented-out "Completions" block (lines 22-26). -/
inductive Stmt where
  | bindModel (v : String)
  | bindPort (v : String)
  | bindPrompt (v : String)
  | constructClient
  | chatCompletionCreate
  | printFirstChoiceMessage
  | completionsCreate
deriving DecidableEq, Repr

/-- Interpreter state: the module-level bindings, the response variable,
the events emitted so far, and a pending unhandled error. -/
structure PyState where
  model : String
  port : String
  prompt : String
  client : Option Client
  response : Option ChatResponse
  events : List Event
  error : Option ScriptError
deriving DecidableEq, Repr

/-- State before the first statement runs: nothing bound, nothing emitted. -/
def initState : PyState :=
  { model := "", port := "", prompt := "", client := none, response := none,
    events := [], error := none }

/-- Effect of one statement on the state.  The chat call records the
outbound request and either stores the response or records the propagated
SDK error; the print statement emits `choices[0].message` to stdout or
records an `IndexError` when the choices list is empty. -/
def execStmt (server : Server) (st : PyState) : Stmt → PyState
  | .bindModel v => { st with model := v }
  | .bindPort v => { st with port := v }
  | .bindPrompt v => { st with prompt := v }
  | .constructClient => { st with client := some (mkClient st.port) }
  | .chatCompletionCreate =>
      match st.client with
      | none => { st with error := some ScriptError.nameError }
      | some c =>
          let req := mkRequest st.model st.prompt
          match server req with
          | Except.ok resp =>
              { st with response := some resp,
                        events := st.events ++ [Event.chatCompletionCall c req] }
          | Except.error e =>
              { st with events := st.events ++ [Event.chatCompletionCall c req],
                        error := some (ScriptError.sdk e) }
  | .printFirstChoiceMessage =>
      match st.response with
      | none => { st with error := some ScriptError.nameError }
      | some resp =>
          match resp.choices[0]? with
          | some ch => { st with events := st.events ++ [Event.stdout ch.message] }
          | none => { st with error := some ScriptError.indexError }
  | .completionsCreate =>
      match st.client with
      | none => { st with error := some ScriptError.nameError }
      | some c =>
          { st with events := st.events ++ [Event.completionsCall c st.model st.prompt] }

/-- An unhandled error stops execution: once `error` is set no further
statement runs (the process terminates with that error). -/
def step (server : Server) (st : PyState) (s : Stmt) : PyState :=
  match st.error with
  | some _ => st
  | none => execStmt server st s

/-- Run a statement list from a state. -/
def runStmts (server : Server) (stmts : List Stmt) (st : PyState) : PyState :=
  stmts.foldl (step server) st

/-- The script's single linear statement sequence, with its three
placeholder constants abstracted: bind `model`, `port`, `prompt`, construct
the client, issue the chat-completion call, print the first choice's
message.  The commented-out `completionsCreate` is not part of it. -/
def script (m p pr : String) : List Stmt :=
  [Stmt.bindModel m, Stmt.bindPort p, Stmt.bindPrompt pr,
   Stmt.constructClient, Stmt.chatCompletionCreate, Stmt.printFirstChoiceMessage]

/-- Run the (parameterised) script against a server. -/
def runScript (server : Server) (m p pr : String) : PyState :=
  runStmts server (script m p pr) initState

/-- The script exactly as shipped, with its placeholder constants. -/
def sourceScript : List Stmt := script model port prompt

/-- Run the shipped script against a server. -/
def runSourceScript (server : Server) : PyState :=
  runStmts server sourceScript initState

/-- `f"{s}"` leaves a string unchanged. -/
theorem fstrInterp_eq (s : String) : fstrInterp s = s := by
  simp [fstrInterp, toString]

/-- The request body, with the f-string interpolation evaluated. -/
theorem mkRequest_eq (m pr : String) :
    mkRequest m pr = { model := m, messages := [{ role := "user", content := pr }] } := by
  simp [mkRequest, fstrInterp_eq]

/-- Closed form of a run: the client is constructed, exactly one chat call
is issued, and the outcome splits on the server's answer and on the first
choice's presence. -/
theorem runScript_eq (server : Server) (m p pr : String) :
    runScript server m p pr =
      match server (mkRequest m pr) with
      | Except.error e =>
          { model := m, port := p, prompt := pr, client := some (mkClient p),
            response := none,
            events := [Event.chatCompletionCall (mkClient p) (mkRequest m pr)],
            error := some (ScriptError.sdk e) }
      | Except.ok resp =>
          match resp.choices[0]? with
          | some ch =>
              { model := m, port := p, prompt := pr, client := some (mkClient p),
                response := some resp,
                events := [Event.chatCompletionCall (mkClient p) (mkRequest m pr),
                           Event.stdout ch.message],
                error := none }
          | none =>
              { model := m, port := p, prompt := pr, client := some (mkClient p),
                response := some resp,
                events := [Event.chatCompletionCall (mkClient p) (mkRequest m pr)],
                error := some ScriptError.indexError } := by
  cases h : server (mkRequest m pr) with
  | error e =>
      simp [runScript, runStmts, script, step, execStmt, initState, h]
  | ok resp =>
      cases hc : resp.choices[0]? with
      | some ch =>
          simp [runScript, runStmts, script, step, execStmt, initState, h, hc]
      | none =>
          simp [runScript, runStmts, script, step, execStmt, initState, h, hc]

/-- Server answering every request with the fixed example response
`{"choices":[{"message":{"role":"assistant","content":"Hi there!"}}]}`. -/
def demoServer : Server :=
  fun _ => Except.ok { choices := [{ message := { role := "assistant", content := "Hi there!" } }] }

/-- Server answering every request with a response whose choices list is empty. -/
def emptyChoicesServer : Server :=
  fun _ => Except.ok { choices := [] }

/-- Server on which every request makes the SDK raise `connection refused`. -/
def refusingServer : Server :=
  fun _ => Except.error SdkError.connectionRefused

/-- Server answering with two choices that has the same first choice as
`demoServer`'s single-choice answer. -/
def twoChoicesServer : Server :=
  fun _ => Except.ok
    { choices := [{ message := { role := "assistant", content := "Hi there!" } },
                  { message := { role := "assistant", content := "ignored" } }] }

/-- C1: for every model identifier `m` and prompt `pr` (and any port and
server), the chat-completion request the script issues carries model field
`m` and exactly one message, of role `"user"` and content exactly `pr`
(the f-string interpolation leaves `pr` unchanged). -/
theorem chat_request_payload (server : Server) (m p pr : String) :
    (runScript server m p pr).events.head? =
      some (Event.chatCompletionCall (mkClient p)
        { model := m, messages := [{ role := "user", content := pr }] }) := by
  rw [runScript_eq, ← mkRequest_eq]
  cases h : server (mkRequest m pr) with
  | error e => rfl
  | ok resp => cases hc : resp.choices[0]? <;> simp [hc]

/-- C2: on a response whose choices list is non-empty, the script prints
exactly the message object of the first choice, unchanged, and finishes
without error; the trace is the single call followed by that one print. -/
theorem prints_first_choice_message (server : Server) (m p pr : String)
    (resp : ChatResponse) (c : Choice) (cs : List Choice)
    (hresp : server (mkRequest m pr) = Except.ok resp)
    (hchoices : resp.choices = c :: cs) :
    (runScript server m p pr).events =
      [Event.chatCompletionCall (mkClient p) (mkRequest m pr),
       Event.stdout c.message] ∧
    (runScript server m p pr).error = none := by
  rw [runScript_eq, hresp]
  simp [hchoices]

/-- Witness for C2: on the spec's example scenario the printed output is
the assistant message with content `"Hi there!"`. -/
theorem prints_first_choice_message_witness :
    (runScript demoServer "meta-llama/Llama-3-8B" "8000" "Hello").events =
      [Event.chatCompletionCall (mkClient "8000")
         (mkRequest "meta-llama/Llama-3-8B" "Hello"),
       Event.stdout { role := "assistant", content := "Hi there!" }] ∧
    (runScript demoServer "meta-llama/Llama-3-8B" "8000" "Hello").error = none :=
  prints_first_choice_message demoServer "meta-llama/Llama-3-8B" "8000" "Hello"
    { choices := [{ message := { role := "assistant", content := "Hi there!" } }] }
    { message := { role := "assistant", content := "Hi there!" } } [] rfl rfl

/-- C3: for every port `p`, the client the script constructs has base URL
exactly `"http://localhost:" ++ p ++ "/v1"`. -/
theorem base_url_exact (server : Server) (m p pr : String) :
    (runScript server m p pr).client = some (mkClient p) ∧
    (mkClient p).base_url = "http://localhost:" ++ p ++ "/v1" := by
  constructor
  · rw [runScript_eq]
    cases h : server (mkRequest m pr) with
    | error e => rfl
    | ok resp => cases hc : resp.choices[0]? <;> simp [hc]
  · simp [mkClient, toString]

/-- C4: on a response with an empty choices list, `choices[0]` raises an
index error which propagates (execution ends with it), and nothing is
printed to stdout. -/
theorem empty_choices_raises (server : Server) (m p pr : String)
    (resp : ChatResponse)
    (hresp : server (mkRequest m pr) = Except.ok resp)
    (hempty : resp.choices = []) :
    (runScript server m p pr).error = some ScriptError.indexError ∧
    ∀ msg, Event.stdout msg ∉ (runScript server m p pr).events := by
  rw [runScript_eq, hresp]
  simp [hempty]

/-- Witness for C4: a server returning zero choices makes the shipped call
sequence end in the index error with no stdout event. -/
theorem empty_choices_raises_witness :
    (runScript emptyChoicesServer "m" "8000" "Hello").error =
      some ScriptError.indexError ∧
    ∀ msg, Event.stdout msg ∉ (runScript emptyChoicesServer "m" "8000" "Hello").events :=
  empty_choices_raises emptyChoicesServer "m" "8000" "Hello" { choices := [] } rfl rfl

/-- C5: whatever the model, port, prompt and server, the constructed client
carries the fixed api key `"token"`. -/
theorem fixed_api_key (server : Server) (m p pr : String) :
    (runScript server m p pr).client = some (mkClient p) ∧
    (mkClient p).api_key = "token" := by
  constructor
  · rw [runScript_eq]
    cases h : server (mkRequest m pr) with
    | error e => rfl
    | ok resp => cases hc : resp.choices[0]? <;> simp [hc]
  · rfl

/-- C6: two runs whose responses agree on the first choice produce
identical observable output (events and final error): choices beyond the
first never influence the output. -/
theorem first_choice_determines_output (server₁ server₂ : Server) (m p pr : String)
    (resp₁ resp₂ : ChatResponse)
    (h₁ : server₁ (mkRequest m pr) = Except.ok resp₁)
    (h₂ : server₂ (mkRequest m pr) = Except.ok resp₂)
    (hfirst : resp₁.choices[0]? = resp₂.choices[0]?) :
    (runScript server₁ m p pr).events = (runScript server₂ m p pr).events ∧
    (runScript server₁ m p pr).error = (runScript server₂ m p pr).error := by
  rw [runScript_eq, runScript_eq, h₁, h₂]
  cases hc : resp₂.choices[0]? <;> simp [hfirst, hc]

/-- Witness for C6: a one-choice response and a two-choice response with
the same first choice give identical output. -/
theorem first_choice_determines_output_witness :
    (runScript demoServer "m" "8000" "Hello").events =
      (runScript twoChoicesServer "m" "8000" "Hello").events ∧
    (runScript demoServer "m" "8000" "Hello").error =
      (runScript twoChoicesServer "m" "8000" "Hello").error :=
  first_choice_determines_output demoServer twoChoicesServer "m" "8000" "Hello"
    { choices := [{ message := { role := "assistant", content := "Hi there!" } }] }
    { choices := [{ message := { role := "assistant", content := "Hi there!" } },
                  { message := { role := "assistant", content := "ignored" } }] }
    rfl rfl rfl

/-- C7: every execution is the single linear sequence construct-call-print:
the trace is exactly one chat-completion call, followed by at most one
print; the commented-out "completions" statement is not in the script and
its call never appears in any trace. -/
theorem linear_single_path (server : Server) (m p pr : String) :
    ((runScript server m p pr).events =
        [Event.chatCompletionCall (mkClient p) (mkRequest m pr)] ∨
      ∃ msg, (runScript server m p pr).events =
        [Event.chatCompletionCall (mkClient p) (mkRequest m pr),
         Event.stdout msg]) ∧
    Stmt.completionsCreate ∉ script m p pr ∧
    ∀ c a b, Event.completionsCall c a b ∉ (runScript server m p pr).events := by
  refine ⟨?_, by simp [script], ?_⟩
  · rw [runScript_eq]
    cases h : server (mkRequest m pr) with
    | error e => exact Or.inl rfl
    | ok resp =>
        cases hc : resp.choices[0]? with
        | none => exact Or.inl (by simp [hc])
        | some ch => exact Or.inr ⟨ch.message, by simp [hc]⟩
  · rw [runScript_eq]
    cases h : server (mkRequest m pr) with
    | error e => simp
    | ok resp => cases hc : resp.choices[0]? <;> simp [hc]

/-- C8: any error the SDK raises during the call propagates unchanged: the
run ends with exactly that error, exactly one call was made (no retry),
and nothing is printed to stdout. -/
theorem sdk_error_propagates (server : Server) (m p pr : String) (e : SdkError)
    (herr : server (mkRequest m pr) = Except.error e) :
    (runScript server m p pr).error = some (ScriptError.sdk e) ∧
    (runScript server m p pr).events =
      [Event.chatCompletionCall (mkClient p) (mkRequest m pr)] ∧
    ∀ msg, Event.stdout msg ∉ (runScript server m p pr).events := by
  rw [runScript_eq, herr]
  simp

/-- Witness for C8: a connection-refused failure ends the run with exactly
that error and no stdout output. -/
theorem sdk_error_propagates_witness :
    (runScript refusingServer "m" "8000" "Hello").error =
      some (ScriptError.sdk SdkError.connectionRefused) ∧
    (runScript refusingServer "m" "8000" "Hello").events =
      [Event.chatCompletionCall (mkClient "8000") (mkRequest "m" "Hello")] ∧
    ∀ msg, Event.stdout msg ∉ (runScript refusingServer "m" "8000" "Hello").events :=
  sdk_error_propagates refusingServer "m" "8000" "Hello"
    SdkError.connectionRefused rfl

/-- C9: after their initial binding, `model`, `port`, `prompt` and the
client are never mutated or rebound: at the end of any run they still hold
exactly the bound values, and the one request was built from exactly those
values. -/
theorem no_mutation_after_binding (server : Server) (m p pr : String) :
    (runScript server m p pr).model = m ∧
    (runScript server m p pr).port = p ∧
    (runScript server m p pr).prompt = pr ∧
    (runScript server m p pr).client = some (mkClient p) ∧
    (runScript server m p pr).events.head? =
      some (Event.chatCompletionCall (mkClient p) (mkRequest m pr)) := by
  rw [runScript_eq]
  cases h : server (mkRequest m pr) with
  | error e => exact ⟨rfl, rfl, rfl, rfl, rfl⟩
  | ok resp => cases hc : resp.choices[0]? <;> simp [hc]

/-- C10: with the placeholder constants as shipped (`model = ""`,
`port = ""`, `prompt = "Hello"`), the client is still constructed (no
failure at construction time), its base URL is exactly
`"http://localhost:/v1"`, and the request carries the empty model
identifier. -/
theorem shipped_placeholder_run (server : Server) :
    (mkClient port).base_url = "http://localhost:/v1" ∧
    (runSourceScript server).client = some (mkClient port) ∧
    (runSourceScript server).events.head? =
      some (Event.chatCompletionCall (mkClient port) (mkRequest model prompt)) ∧
    (mkRequest model prompt).model = "" := by
  have h : runSourceScript server = runScript server model port prompt := rfl
  refine ⟨rfl, ?_, ?_, rfl⟩
  · rw [h, runScript_eq]
    cases hs : server (mkRequest model prompt) with
    | error e => rfl
    | ok resp => cases hc : resp.choices[0]? <;> simp [hc]
  · rw [h, runScript_eq]
    cases hs : server (mkRequest model prompt) with
    | error e => rfl
    | ok resp => cases hc : resp.choices[0]? <;> simp [hc]

end RayVllmClient
